import Mathlib

/-!
Verification development for the football-transfer-valuation repository.

Two flows are embedded:

* `QA` : the data-quality script `src/qa_check.py`.  The script declares
  five rules over a hard-coded "dirty" table and runs them through the
  great_expectations validator.  The rule evaluators below follow the
  documented column-map semantics of great_expectations: each element-wise
  expectation (`between`, `in_set`, `unique`) is evaluated over the
  non-null values of the column (null cells are counted as "missing", not
  as "unexpected"), while `not_be_null` counts exactly the null cells.
  A rule succeeds iff its unexpected count is zero, and the overall report
  succeeds iff every rule succeeded.

* `Dash` : the dashboard `src/app.py` (load, filter, ridge fit, predict,
  score, annotate, rank).  Machine floats are modelled as exact rationals.
-/

namespace QA

/-- A cell value of the validated table: the script's columns hold integers
(`player_id`, `age`, `market_value_eur`) and strings (`player_name`,
`league`). -/
inductive ColVal where
  | int (n : Int)
  | str (s : String)
deriving DecidableEq

/-- A column is a list of cells; `none` models a pandas null (`None`/NaN). -/
abbrev Column := List (Option ColVal)

/-- A table is an association list from column names to columns, mirroring
the dict-of-lists construction in `qa_check.py`. -/
abbrev Table := List (String × Column)

/-- Column lookup.  Every rule declared by the script targets a column that
exists in the table; a missing name yields the empty column. -/
def getCol (t : Table) (col : String) : Column :=
  ((t.find? (fun p => p.1 == col)).map Prod.snd).getD []

/-- The declarative rules the script registers on the validator, one
constructor per expectation kind used in `qa_check.py`. -/
inductive Rule where
  | unique (col : String)
  | between (col : String) (lo hi : Int)
  | notNull (col : String)
  | inSet (col : String) (allowed : List ColVal)

/-- Per-rule outcome: target column, success flag, and the
`unexpected_count` reported by the validator. -/
structure RuleResult where
  col : String
  success : Bool
  count : Nat
deriving DecidableEq

/-- The non-null values of a column — the domain over which the element-wise
expectations of great_expectations are evaluated. -/
def nonnullVals (c : Column) : List ColVal := c.filterMap id

/-- `min_value ≤ v ≤ max_value` for an integer cell; a string cell can never
satisfy an integer range. -/
def inRangeB (lo hi : Int) : ColVal → Bool
  | .int n => decide (lo ≤ n) && decide (n ≤ hi)
  | .str _ => false

/-- Evaluation of one rule against a table, following great_expectations:
`unique` counts every non-null value that occurs more than once in the
column; `between` and `inSet` count the non-null values violating the
predicate (nulls are missing, not unexpected); `notNull` counts the null
cells.  A rule succeeds iff its count is zero. -/
def evalRule (t : Table) : Rule → RuleResult
  | .unique col =>
      let vs := nonnullVals (getCol t col)
      let cnt := vs.countP (fun v => decide (2 ≤ vs.count v))
      ⟨col, cnt == 0, cnt⟩
  | .between col lo hi =>
      let cnt := (nonnullVals (getCol t col)).countP (fun v => !(inRangeB lo hi v))
      ⟨col, cnt == 0, cnt⟩
  | .notNull col =>
      let cnt := (getCol t col).countP (fun x => x.isNone)
      ⟨col, cnt == 0, cnt⟩
  | .inSet col allowed =>
      let cnt := (nonnullVals (getCol t col)).countP (fun v => !(allowed.contains v))
      ⟨col, cnt == 0, cnt⟩

/-- The aggregate validation report: overall success flag (conjunction of
the per-rule flags) and the ordered per-rule results. -/
structure Report where
  success : Bool
  results : List RuleResult
deriving DecidableEq

/-- Run the rules in order, threading the table through each evaluation.
`evalRule` is read-only, so the table component is returned unchanged; the
threading makes "running validate twice in sequence" expressible. -/
def runRules : Table → List Rule → List RuleResult × Table
  | t, [] => ([], t)
  | t, r :: rs =>
      let res := evalRule t r
      let rest := runRules t rs
      (res :: rest.1, rest.2)

/-- `validator.validate()`: evaluate every rule and aggregate the report;
also return the table the next consumer would see. -/
def validate (t : Table) (rules : List Rule) : Report × Table :=
  let rr := runRules t rules
  (⟨rr.1.all (fun r => r.success), rr.1⟩, rr.2)

/-- The hard-coded "dirty" table of `qa_check.py`: five rows, player_id 101
duplicated, one age of 150, one market value of -5000, one null league. -/
def dirtyTable : Table :=
  [ ("player_id", [some (.int 101), some (.int 102), some (.int 103), some (.int 101), some (.int 105)]),
    ("player_name", [some (.str "Szoboszlai Dominik"), some (.str "Phil Foden"), some (.str "Harry Kane"), some (.str "Szoboszlai Dominik"), some (.str "Unknown Player")]),
    ("age", [some (.int 24), some (.int 23), some (.int 30), some (.int 24), some (.int 150)]),
    ("market_value_eur", [some (.int 75000000), some (.int 110000000), some (.int 90000000), some (.int 75000000), some (.int (-5000))]),
    ("league", [some (.str "Premier League"), some (.str "Premier League"), some (.str "Bundesliga"), some (.str "Premier League"), none]) ]

/-- The six leagues the script tracks. -/
def allowedLeagues : List ColVal :=
  [.str "Premier League", .str "Bundesliga", .str "La Liga", .str "Serie A", .str "Ligue 1", .str "NB I"]

/-- The five expectations of `qa_check.py`, in registration order. -/
def scriptRules : List Rule :=
  [ .unique "player_id",
    .between "age" 15 45,
    .notNull "market_value_eur",
    .between "market_value_eur" 0 300000000,
    .inSet "league" allowedLeagues ]

/-- The report the script's `validator.validate()` call produces. -/
def scriptReport : Report := (validate dirtyTable scriptRules).1

/-- Claim-side count, in the spec's words: the rows whose (non-null) value
in the column lies outside the bounds. -/
def outsideCount (c : Column) (lo hi : Int) : Nat :=
  ((nonnullVals c).filter (fun v => !(inRangeB lo hi v))).length

/-- Claim-side count, in the spec's words: the rows whose value in the
column is null. -/
def nullCount (c : Column) : Nat := (c.filter (fun x => x.isNone)).length

/-- A one-column table with one in-range value and one null cell, probing
how a range rule treats nulls. -/
def cexTable : Table := [("v", [some (.int 5), none])]

end QA

namespace Dash

/-- One row of the loaded dashboard table (`data/processed/final_dataset.csv`
after `load_data`).  `minutes` is the `Playing Time_Min` column and `prgc`
the `Progression_PrgC` column; `none` models a pandas NaN.  `age_clean` is
the integer-years field produced by load-time age normalization. -/
structure PRow where
  player_name : String
  team : String
  league : Option String
  minutes : Option ℚ
  age_clean : ℚ
  goals : ℚ
  assists : ℚ
  xg : ℚ
  prgc : ℚ
  value_eur : ℚ
deriving DecidableEq

/-! ### Age normalization (`load_data`)

`df['age'].str.split('-').str[0].astype(int)`: split the raw age string on
the dash, keep the first segment, convert it to an integer.  The conversion
follows Python `int(str)`: surrounding whitespace is stripped, one leading
plus sign is allowed (a minus cannot survive the split), and the remainder
must be one or more decimal digits, else a `ValueError` aborts the load
(modelled as `none`).  PEP 515 underscore grouping is not modelled. -/

/-- `str.split('-')` on the character list of the raw age string. -/
def splitOnDash : List Char → List (List Char)
  | [] => [[]]
  | c :: cs =>
      if c = '-' then [] :: splitOnDash cs
      else
        match splitOnDash cs with
        | [] => [[c]]
        | p :: ps => (c :: p) :: ps

/-- Numeric value of a decimal digit string, most significant digit first. -/
def natOfDigits (l : List Char) : ℕ :=
  l.foldl (fun a c => 10 * a + (c.toNat - 48)) 0

/-- Strip leading and trailing whitespace, as Python `int(str)` does. -/
def trimChars (l : List Char) : List Char :=
  ((l.dropWhile Char.isWhitespace).reverse.dropWhile Char.isWhitespace).reverse

/-- Drop one leading plus sign, as Python `int(str)` does. -/
def dropPlus : List Char → List Char
  | [] => []
  | c :: cs => if c = '+' then cs else c :: cs

/-- Python `int(str)` restricted to the non-negative forms reachable after
the split: `none` models the `ValueError` that aborts `load_data`. -/
def parsePyNat (l : List Char) : Option ℕ :=
  let core := dropPlus (trimChars l)
  if core ≠ [] ∧ core.all Char.isDigit then some (natOfDigits core) else none

/-- The age-normalization of `load_data`: first dash-separated segment of
the raw string, parsed as an integer; `none` models the load-aborting
error. -/
def normalizeAge (s : String) : Option ℕ :=
  parsePyNat (splitOnDash s.toList).headI

/-! ### Filter stage -/

/-- `df['Playing Time_Min'] >= min_minutes`: a NaN minutes value compares
false against any threshold, as in pandas. -/
def minOk (minM : ℚ) : Option ℚ → Bool
  | none => false
  | some x => decide (minM ≤ x)

/-- `df['league'].unique()`: the distinct league values in order of first
appearance (a null league is itself an observed value, as in pandas). -/
def observedLeagues (rows : List PRow) : List (Option String) :=
  (rows.map (fun r => r.league)).dedup

/-- The sidebar filter: keep the rows whose league is in the selection and
whose minutes are at least the threshold.  `isin` matches a null league when
the selection contains the null, as pandas `isin` does. -/
def filterRows (rows : List PRow) (sel : List (Option String)) (minM : ℚ) : List PRow :=
  rows.filter (fun r => sel.contains r.league && minOk minM r.minutes)

/-! ### Valuation model (`Ridge(alpha=1.0)`) -/

/-- The fixed feature vector `['age_clean', 'goals', 'assists', 'xg',
'Progression_PrgC']`. -/
def featVec (r : PRow) : Fin 5 → ℚ :=
  ![r.age_clean, r.goals, r.assists, r.xg, r.prgc]

/-- A fitted model: one coefficient per feature plus an intercept. -/
structure Model where
  coef : Fin 5 → ℚ
  intercept : ℚ

/-- Errors of the fitting stage.  `insufficientData` models the
`ValueError` scikit-learn raises when `fit` receives zero samples
("minimum of 1 is required"), the spec's `InsufficientDataError`. -/
inductive FitError where
  | insufficientData
deriving DecidableEq

/-- Mean of a feature column over the fitted rows. -/
def colMean (rows : List PRow) (i : Fin 5) : ℚ :=
  ((rows.map (fun r => featVec r i)).sum) / (rows.length : ℚ)

/-- Mean of the target `value_eur` over the fitted rows. -/
def yMean (rows : List PRow) : ℚ :=
  ((rows.map (fun r => r.value_eur)).sum) / (rows.length : ℚ)

/-- Centered Gram matrix `Xc^T * Xc` of the feature matrix. -/
def gram (rows : List PRow) : Matrix (Fin 5) (Fin 5) ℚ :=
  Matrix.of fun i j =>
    (rows.map (fun r => (featVec r i - colMean rows i) * (featVec r j - colMean rows j))).sum

/-- Centered moment vector `Xc^T * yc`. -/
def xty (rows : List PRow) (i : Fin 5) : ℚ :=
  (rows.map (fun r => (featVec r i - colMean rows i) * (r.value_eur - yMean rows))).sum

/-- The regularized normal-equations matrix `Xc^T Xc + alpha * I` with the
script's `alpha = 1.0`. -/
def ridgeMat (rows : List PRow) : Matrix (Fin 5) (Fin 5) ℚ :=
  gram rows + (1 : ℚ) • (1 : Matrix (Fin 5) (Fin 5) ℚ)

/-- The ridge coefficients: the solution of
`(Xc^T Xc + alpha I) w = Xc^T yc`, written with the adjugate so that the
definition is executable (`A⁻¹ b = det A ⁻¹ • adjugate A *ᵥ b`). -/
def ridgeCoef (rows : List PRow) : Fin 5 → ℚ :=
  ((ridgeMat rows).det)⁻¹ • ((ridgeMat rows).adjugate.mulVec (xty rows))

/-- `Ridge(alpha=1.0).fit(X, y)`: zero rows abort with the insufficient-data
error; otherwise the centered ridge solve yields the coefficients and the
intercept `ȳ - x̄ · w`. -/
def fit (rows : List PRow) : Except FitError Model :=
  if rows.isEmpty then .error .insufficientData
  else .ok ⟨ridgeCoef rows, yMean rows - ∑ i, colMean rows i * ridgeCoef rows i⟩

/-- Prediction of a fitted model on one row: `w · x + b`. -/
def pred (m : Model) (r : PRow) : ℚ :=
  (∑ i, m.coef i * featVec r i) + m.intercept

/-- `model.predict(X)`: one prediction per row, in row order. -/
def predict (m : Model) : List PRow → List ℚ
  | [] => []
  | r :: rs => pred m r :: predict m rs

/-- A Scored Record: the row together with the `predicted_value` and
`difference` columns attached by the dashboard. -/
structure ScoredRow where
  base : PRow
  predicted_value : ℚ
  difference : ℚ
deriving DecidableEq

/-- The two column assignments
`df_filtered['predicted_value'] = model.predict(X)` and
`df_filtered['difference'] = predicted_value - value_eur`, zipping each row
with its prediction. -/
def annotate (m : Model) (rows : List PRow) : List ScoredRow :=
  (rows.zip (predict m rows)).map (fun p => ⟨p.1, p.2, p.2 - p.1.value_eur⟩)

/-- Residual sum of squares of the model on the rows. -/
def ssRes (m : Model) (rows : List PRow) : ℚ :=
  (rows.map (fun r => (r.value_eur - pred m r) ^ 2)).sum

/-- Total sum of squares of the targets around their mean. -/
def ssTot (rows : List PRow) : ℚ :=
  (rows.map (fun r => (r.value_eur - yMean rows) ^ 2)).sum

/-- `model.score(X, y)` = `sklearn.metrics.r2_score(y, predict(X))`: with
fewer than two samples scikit-learn warns "R^2 score is not well-defined
with less than two samples" and returns NaN (modelled as `none`); with a
zero total sum of squares it returns 1.0 when the residual is also zero and
0.0 otherwise; else `1 - SS_res / SS_tot`. -/
def score (m : Model) (rows : List PRow) : Option ℚ :=
  if rows.length < 2 then none
  else
    some (if ssTot rows = 0 then (if ssRes m rows = 0 then 1 else 0)
          else 1 - ssRes m rows / ssTot rows)

/-! ### Ranking -/

/-- The sorted-descending-by-difference property of a candidate ranking. -/
def sortedByDiffB : List ScoredRow → Bool
  | [] => true
  | [_] => true
  | a :: b :: t => decide (b.difference ≤ a.difference) && sortedByDiffB (b :: t)

/-- The contract of `df_filtered.sort_values(by='difference',
ascending=False)` with the default `kind='quicksort'`: the output is some
permutation of the input that is sorted by `difference` descending.  The
default sort is documented as not stable, so the contract does not single
out one permutation. -/
def isSortResult (input output : List ScoredRow) : Prop :=
  output.Perm input ∧ sortedByDiffB output = true

/-- Stability in the claim's sense: tied rows keep their relative order
from the input. -/
def keepsTieOrder (input output : List ScoredRow) : Prop :=
  ∀ a ∈ input, ∀ b ∈ input, a.difference = b.difference →
    (input.indexOf a ≤ input.indexOf b ↔ output.indexOf a ≤ output.indexOf b)

/-! ### Whole-run frame -/

/-- The columns of the loaded table used by `app.py`: the CSV columns it
references plus the `age_clean` column appended by `load_data`. -/
def loadedColumns : List String :=
  ["player_name", "age", "team", "league", "Playing Time_Min",
   "goals", "assists", "xg", "Progression_PrgC", "value_eur", "age_clean"]

/-- The dashboard flow from the loaded table to the scored subset:
`df_filtered = df[mask]` (boolean-mask indexing returns a copy, so `df` is
never aliased), then fit and the two column assignments on the copy.  The
first component is the loaded table as the flow leaves it. -/
def dashboardRun (df : List PRow) (sel : List (Option String)) (minM : ℚ) :
    List PRow × Except FitError (List ScoredRow) :=
  let dff := filterRows df sel minM
  match fit dff with
  | .error e => (df, .error e)
  | .ok m => (df, .ok (annotate m dff))

/-! ### Concrete instances used by counterexamples and witnesses -/

/-- A model with zero coefficients and intercept 7: it predicts 7 for every
row. -/
def m0 : Model := ⟨fun _ => 0, 7⟩

/-- A row whose market value is exactly 7, perfectly predicted by `m0`. -/
def r7 : PRow := ⟨"A", "T", some "L", some 500, 0, 0, 0, 0, 0, 7⟩

/-- A loaded row whose minutes cell is null (NaN). -/
def rowNoMinutes : PRow := ⟨"B", "T", some "Premier League", none, 24, 0, 0, 0, 0, 5⟩

/-- A loaded row with 500 minutes. -/
def rowPlayed : PRow := ⟨"C", "T", some "Premier League", some 500, 24, 0, 0, 0, 0, 5⟩

/-- A scored row named "A" with difference 3. -/
def sA : ScoredRow := ⟨⟨"A", "T", some "L", some 500, 0, 0, 0, 0, 0, 7⟩, 10, 3⟩

/-- A scored row named "B", distinct from `sA`, with the same difference 3. -/
def sB : ScoredRow := ⟨⟨"B", "T", some "L", some 500, 0, 0, 0, 0, 0, 9⟩, 12, 3⟩

/-- A two-row subset whose rows are tied on `difference`. -/
def tiedIn : List ScoredRow := [sA, sB]

/-- The tied rows in the opposite order. -/
def swappedOut : List ScoredRow := [sB, sA]

end Dash

/-! ## Helper lemmas -/

theorem qa_runRules_snd (t : QA.Table) (rules : List QA.Rule) :
    (QA.runRules t rules).2 = t := by
  induction rules with
  | nil => rfl
  | cons r rs ih => simp [QA.runRules, ih]

theorem dash_predict_eq_map (m : Dash.Model) (rows : List Dash.PRow) :
    Dash.predict m rows = rows.map (Dash.pred m) := by
  induction rows with
  | nil => rfl
  | cons r rs ih => simp [Dash.predict, ih]

theorem dash_annotate_eq_map (m : Dash.Model) (rows : List Dash.PRow) :
    Dash.annotate m rows =
      rows.map (fun r => ⟨r, Dash.pred m r, Dash.pred m r - r.value_eur⟩) := by
  induction rows with
  | nil => rfl
  | cons r rs ih =>
      simp only [Dash.annotate, Dash.predict, List.zip_cons_cons, List.map_cons] at *
      rw [ih]

/-! ## C1 — validation report on the example dataset -/

/-- C1, counterexample: the set-membership rule on `league` reports
violation count 0 on the dirty table, not the claimed 1 — the validator
skips the null league cell. -/
theorem c1_league_count_cex :
    (QA.evalRule QA.dirtyTable (QA.Rule.inSet "league" QA.allowedLeagues)).count = 0 ∧
    (QA.evalRule QA.dirtyTable (QA.Rule.inSet "league" QA.allowedLeagues)).count ≠ 1 := by
  decide

/-- C1 (amended): on the example dataset, the overall success flag is
false; the uniqueness rule reports 2 violations, the age range rule 1, the
non-null rule 0, the market-value range rule 1, and the league
set-membership rule 0 (the null league is skipped, so that rule
succeeds). -/
theorem c1_report :
    QA.scriptReport.success = false ∧
    QA.scriptReport.results.map (fun r => (r.col, r.success, r.count)) =
      [("player_id", false, 2), ("age", false, 1), ("market_value_eur", true, 0),
       ("market_value_eur", false, 1), ("league", true, 0)] := by
  decide

/-! ## C4 — fit on an empty row set -/

/-- C4: fitting on zero rows — in particular on the Working Subset produced
by an empty league selection — fails with the insufficient-data error
instead of producing a model. -/
theorem c4_fit_empty :
    Dash.fit ([] : List Dash.PRow) = Except.error Dash.FitError.insufficientData ∧
    ∀ (rows : List Dash.PRow) (minM : ℚ),
      Dash.fit (Dash.filterRows rows [] minM) =
        Except.error Dash.FitError.insufficientData := by
  refine ⟨rfl, ?_⟩
  intro rows minM
  have h : Dash.filterRows rows [] minM = [] := by
    simp [Dash.filterRows]
  rw [h]
  rfl

/-! ## C7 — violation count of a numeric range rule -/

/-- C7, counterexample: on a column holding `[5, null]` with bounds
`[0, 10]`, the range rule reports 0 violations, while the claim's formula
(out-of-bounds rows plus null rows) gives 1 — the null cell is not
counted. -/
theorem c7_null_not_counted_cex :
    (QA.evalRule QA.cexTable (QA.Rule.between "v" 0 10)).count = 0 ∧
    QA.outsideCount (QA.getCol QA.cexTable "v") 0 10 +
      QA.nullCount (QA.getCol QA.cexTable "v") = 1 ∧
    (QA.evalRule QA.cexTable (QA.Rule.between "v" 0 10)).count ≠
      QA.outsideCount (QA.getCol QA.cexTable "v") 0 10 +
        QA.nullCount (QA.getCol QA.cexTable "v") := by
  decide

/-- C7 (amended): for every table and bounds, the range rule's violation
count equals the number of rows whose non-null value lies outside
`[min, max]`; null cells are skipped, not counted. -/
theorem c7_between_count (t : QA.Table) (col : String) (lo hi : Int) :
    (QA.evalRule t (QA.Rule.between col lo hi)).count =
      QA.outsideCount (QA.getCol t col) lo hi := by
  simp [QA.evalRule, QA.outsideCount, List.countP_eq_length_filter]

/-! ## C9 — idempotence of validate -/

/-- C9: running `validate` twice in sequence with the same rules — the
second run on the table as the first run leaves it — yields the identical
report (same overall flag, same per-rule successes and counts). -/
theorem c9_validate_idempotent (t : QA.Table) (rules : List QA.Rule) :
    (QA.validate t rules).1 = (QA.validate (QA.validate t rules).2 rules).1 := by
  have h : (QA.validate t rules).2 = t := by
    simp [QA.validate, qa_runRules_snd]
  rw [h]

/-! ## C10 — the loaded table is left unchanged -/

/-- C10: after filtering, fitting and attaching the `predicted_value` and
`difference` columns to the Working Subset, the loaded table is unchanged —
it is returned cell-for-cell identical and its column set (which never
contained `predicted_value` or `difference`) is untouched. -/
theorem c10_loaded_table_frame (df : List Dash.PRow) (sel : List (Option String)) (minM : ℚ) :
    (Dash.dashboardRun df sel minM).1 = df ∧
    "predicted_value" ∉ Dash.loadedColumns ∧ "difference" ∉ Dash.loadedColumns := by
  refine ⟨?_, by decide, by decide⟩
  cases hf : Dash.fit (Dash.filterRows df sel minM) <;>
    simp [Dash.dashboardRun, hf]

/-! ## Character-level helper lemmas for age normalization -/

theorem dash_splitOnDash_no_dash (l : List Char) (h : ('-') ∉ l) :
    Dash.splitOnDash l = [l] := by
  induction l with
  | nil => rfl
  | cons c cs ih =>
      rw [List.mem_cons] at h
      push_neg at h
      have hc : ¬ c = '-' := fun hc => h.1 hc.symm
      simp [Dash.splitOnDash, hc, ih h.2]

theorem dash_digit_not_ws {c : Char} (h : c.isDigit = true) :
    c.isWhitespace = false := by
  cases hw : c.isWhitespace with
  | false => rfl
  | true =>
      exfalso
      have hcases : ((c = ' ' ∨ c = '\t') ∨ c = '\r') ∨ c = '\n' := by
        simpa [Char.isWhitespace] using hw
      rcases hcases with ((rfl | rfl) | rfl) | rfl <;> exact absurd h (by decide)

theorem dash_digit_ne_plus {c : Char} (h : c.isDigit = true) : ¬ c = '+' := by
  intro he
  rw [he] at h
  exact absurd h (by decide)

theorem dash_dropWhile_ws (l : List Char) (h : l.all Char.isDigit = true) :
    l.dropWhile Char.isWhitespace = l := by
  cases l with
  | nil => rfl
  | cons c cs =>
      rw [List.all_cons, Bool.and_eq_true] at h
      simp [List.dropWhile_cons, dash_digit_not_ws h.1]

theorem dash_trim_digits (l : List Char) (h : l.all Char.isDigit = true) :
    Dash.trimChars l = l := by
  have hrev : l.reverse.all Char.isDigit = true := by
    rw [List.all_eq_true] at h ⊢
    intro x hx
    exact h x (List.mem_reverse.mp hx)
  unfold Dash.trimChars
  rw [dash_dropWhile_ws l h, dash_dropWhile_ws l.reverse hrev, List.reverse_reverse]

theorem dash_dropPlus_digits (l : List Char) (h : l.all Char.isDigit = true) :
    Dash.dropPlus l = l := by
  cases l with
  | nil => rfl
  | cons c cs =>
      rw [List.all_cons, Bool.and_eq_true] at h
      simp [Dash.dropPlus, dash_digit_ne_plus h.1]

theorem dash_mem_trim {a : Char} {l : List Char} (h : a ∈ Dash.trimChars l) :
    a ∈ l := by
  unfold Dash.trimChars at h
  rw [List.mem_reverse] at h
  have h1 : a ∈ (l.dropWhile Char.isWhitespace).reverse :=
    (List.dropWhile_sublist Char.isWhitespace).subset h
  rw [List.mem_reverse] at h1
  exact (List.dropWhile_sublist Char.isWhitespace).subset h1

theorem dash_mem_core {a : Char} {l : List Char}
    (h : a ∈ Dash.dropPlus (Dash.trimChars l)) : a ∈ l := by
  apply dash_mem_trim (l := l)
  cases hl : Dash.trimChars l with
  | nil => rw [hl] at h; cases h
  | cons c cs =>
      rw [hl] at h
      by_cases hc : c = '+'
      · simp only [Dash.dropPlus, if_pos hc] at h
        exact List.mem_cons_of_mem _ h
      · simpa only [Dash.dropPlus, if_neg hc] using h

/-! ## C2 — age normalization -/

/-- C2, counterexample: the separator-free digit string "25" is accepted
with value 25 instead of raising a normalization error. -/
theorem c2_separator_free_cex :
    ('-') ∉ "25".toList ∧ Dash.normalizeAge "25" = some 25 ∧
    Dash.normalizeAge "25" ≠ none := by decide

/-- C2 (amended): "24-180" normalizes to 24 and "0-5" to 0; a
separator-free string of decimal digits is silently accepted and mapped to
its integer value (never defaulting to 0), while a separator-free string
containing no digit at all raises the normalization error. -/
theorem c2_age_normalization :
    Dash.normalizeAge "24-180" = some 24 ∧
    Dash.normalizeAge "0-5" = some 0 ∧
    (∀ s : String, ('-') ∉ s.toList → s.toList ≠ [] →
      s.toList.all Char.isDigit = true →
      Dash.normalizeAge s = some (Dash.natOfDigits s.toList)) ∧
    (∀ s : String, ('-') ∉ s.toList →
      s.toList.all (fun c => !c.isDigit) = true →
      Dash.normalizeAge s = none) := by
  refine ⟨by decide, by decide, ?_, ?_⟩
  · intro s hd hne hdig
    unfold Dash.normalizeAge
    rw [dash_splitOnDash_no_dash s.toList hd]
    simp only [List.headI]
    unfold Dash.parsePyNat
    rw [dash_trim_digits _ hdig, dash_dropPlus_digits _ hdig]
    exact if_pos ⟨hne, hdig⟩
  · intro s hd hnd
    unfold Dash.normalizeAge
    rw [dash_splitOnDash_no_dash s.toList hd]
    simp only [List.headI]
    unfold Dash.parsePyNat
    cases hcore : Dash.dropPlus (Dash.trimChars s.toList) with
    | nil => simp [hcore]
    | cons c cs =>
        have hc : c ∈ s.toList := dash_mem_core (hcore ▸ List.mem_cons_self c cs)
        have hcd : c.isDigit = false := by
          have hx := List.all_eq_true.mp hnd c hc
          simpa using hx
        simp [hcore, List.all_cons, hcd]

/-- Witness for C2 (amended): the separator-free digit string "25" hits the
acceptance branch with value 25, and the digit-free string "x?" hits the
error branch. -/
theorem c2_age_normalization_witness :
    (('-') ∉ "25".toList ∧ "25".toList ≠ [] ∧
      "25".toList.all Char.isDigit = true ∧
      Dash.normalizeAge "25" = some (Dash.natOfDigits "25".toList)) ∧
    (('-') ∉ "x?".toList ∧ "x?".toList.all (fun c => !c.isDigit) = true ∧
      Dash.normalizeAge "x?" = none) :=
  ⟨⟨by decide, by decide, by decide,
    c2_age_normalization.2.2.1 "25" (by decide) (by decide) (by decide)⟩,
   ⟨by decide, by decide,
    c2_age_normalization.2.2.2 "x?" (by decide) (by decide)⟩⟩

/-! ## C3 — ranking stability -/

/-- C3: the sort contract of the ranking step (any permutation sorted by
`difference` descending, which is all the default non-stable sort
guarantees) admits an output that reverses two tied rows, so the ranking is
not guaranteed stable. -/
theorem c3_sort_contract_not_stable :
    Dash.isSortResult Dash.tiedIn Dash.swappedOut ∧
    ¬ Dash.keepsTieOrder Dash.tiedIn Dash.swappedOut := by
  constructor
  · exact ⟨List.Perm.swap Dash.sA Dash.sB [], by decide⟩
  · intro hk
    have h := hk Dash.sA (by decide) Dash.sB (by decide) (by decide)
    revert h
    decide

/-! ## C5 — R² upper bound -/

theorem dash_ssRes_nonneg (m : Dash.Model) (rows : List Dash.PRow) :
    0 ≤ Dash.ssRes m rows := by
  apply List.sum_nonneg
  intro x hx
  rw [List.mem_map] at hx
  obtain ⟨r, _, rfl⟩ := hx
  positivity

theorem dash_ssTot_nonneg (rows : List Dash.PRow) : 0 ≤ Dash.ssTot rows := by
  apply List.sum_nonneg
  intro x hx
  rw [List.mem_map] at hx
  obtain ⟨r, _, rfl⟩ := hx
  positivity

theorem dash_ssRes_perfect (m : Dash.Model) (rows : List Dash.PRow)
    (h : ∀ r ∈ rows, Dash.pred m r = r.value_eur) : Dash.ssRes m rows = 0 := by
  apply List.sum_eq_zero
  intro x hx
  rw [List.mem_map] at hx
  obtain ⟨r, hr, rfl⟩ := hx
  rw [h r hr]
  ring

/-- C5, counterexample: on the non-empty single-row subset `[r7]` — which
the model `m0` predicts perfectly — `score` does not return an R² at most
1.0: with fewer than two samples it returns the undefined value (NaN,
modelled as `none`), not 1.0. -/
theorem c5_single_row_cex :
    ([Dash.r7] : List Dash.PRow) ≠ [] ∧
    Dash.pred Dash.m0 Dash.r7 = Dash.r7.value_eur ∧
    Dash.score Dash.m0 [Dash.r7] = none ∧
    Dash.score Dash.m0 [Dash.r7] ≠ some 1 := by
  refine ⟨by decide, ?_, rfl, by decide⟩
  simp [Dash.pred, Dash.m0, Dash.r7, Fin.sum_univ_five, Dash.featVec]

/-- C5 (amended): on every subset with at least two rows, fit-then-score
returns a defined R² that is at most 1.0, and exactly 1.0 when the model's
predictions equal the actual targets on every row;  a single-row subset
instead yields the undefined NaN value. -/
theorem c5_r2_bound (m : Dash.Model) (rows : List Dash.PRow)
    (h2 : 2 ≤ rows.length) :
    (Dash.score m rows).isSome = true ∧
    (Dash.score m rows).getD 0 ≤ 1 ∧
    ((∀ r ∈ rows, Dash.pred m r = r.value_eur) →
      Dash.score m rows = some 1) := by
  have hnot : ¬ rows.length < 2 := by omega
  unfold Dash.score
  rw [if_neg hnot]
  refine ⟨rfl, ?_, ?_⟩
  · by_cases htot : Dash.ssTot rows = 0
    · by_cases hres : Dash.ssRes m rows = 0 <;> simp [htot, hres]
    · rw [if_neg htot]
      simp only [Option.getD_some]
      have hq : 0 ≤ Dash.ssRes m rows / Dash.ssTot rows :=
        div_nonneg (dash_ssRes_nonneg m rows) (dash_ssTot_nonneg rows)
      linarith
  · intro hp
    have hres := dash_ssRes_perfect m rows hp
    by_cases htot : Dash.ssTot rows = 0 <;> simp [htot, hres]

/-- Witness for C5 (amended): the two-row subset `[r7, r7]`, perfectly
predicted by `m0`, has a defined score, bounded by 1 and equal to 1. -/
theorem c5_r2_bound_witness :
    2 ≤ ([Dash.r7, Dash.r7] : List Dash.PRow).length ∧
    ((Dash.score Dash.m0 [Dash.r7, Dash.r7]).isSome = true ∧
     (Dash.score Dash.m0 [Dash.r7, Dash.r7]).getD 0 ≤ 1 ∧
     ((∀ r ∈ ([Dash.r7, Dash.r7] : List Dash.PRow),
        Dash.pred Dash.m0 r = r.value_eur) →
       Dash.score Dash.m0 [Dash.r7, Dash.r7] = some 1)) :=
  ⟨by decide, c5_r2_bound Dash.m0 [Dash.r7, Dash.r7] (by decide)⟩

/-! ## C6 — full filter reproduces the table -/

/-- C6, counterexample: a loaded table whose single row has a null minutes
cell is not reproduced by filtering with the full observed league set and
threshold 0 — the null comparison `NaN >= 0` is false and the row is
dropped. -/
theorem c6_null_minutes_cex :
    Dash.filterRows [Dash.rowNoMinutes]
        (Dash.observedLeagues [Dash.rowNoMinutes]) 0 ≠ [Dash.rowNoMinutes] := by
  decide

/-- C6 (amended): filtering with the full set of observed leagues and
threshold 0 reproduces the loaded table (same rows, same order) provided
every row's minutes value is present and non-negative. -/
theorem c6_full_filter_id (rows : List Dash.PRow)
    (h : ∀ r ∈ rows, ∃ x, r.minutes = some x ∧ 0 ≤ x) :
    Dash.filterRows rows (Dash.observedLeagues rows) 0 = rows := by
  apply List.filter_eq_self.mpr
  intro r hr
  rw [Bool.and_eq_true]
  constructor
  · have hm : r.league ∈ Dash.observedLeagues rows := by
      unfold Dash.observedLeagues
      rw [List.mem_dedup]
      exact List.mem_map_of_mem _ hr
    exact List.elem_eq_true_of_mem hm
  · obtain ⟨x, hx, hx0⟩ := h r hr
    simp [Dash.minOk, hx, hx0]

/-- Witness for C6 (amended): a one-row table with 500 minutes played is
reproduced exactly. -/
theorem c6_full_filter_id_witness :
    Dash.filterRows [Dash.rowPlayed]
        (Dash.observedLeagues [Dash.rowPlayed]) 0 = [Dash.rowPlayed] :=
  c6_full_filter_id [Dash.rowPlayed] (by
    intro r hr
    rw [List.mem_singleton] at hr
    subst hr
    exact ⟨500, rfl, by norm_num⟩)

/-! ## C8 — predict shape and the difference column -/

/-- C8: `predict` returns exactly one prediction per input row in input
order, and the annotated subset pairs the i-th row with the i-th
prediction, its `difference` being `predicted_value - value_eur`. -/
theorem c8_predict_shape (m : Dash.Model) (rows : List Dash.PRow) (i : ℕ) :
    (Dash.predict m rows).length = rows.length ∧
    (Dash.predict m rows)[i]? = (rows[i]?).map (Dash.pred m) ∧
    (Dash.annotate m rows)[i]? =
      (rows[i]?).map (fun r => ⟨r, Dash.pred m r, Dash.pred m r - r.value_eur⟩) := by
  rw [dash_predict_eq_map, dash_annotate_eq_map]
  refine ⟨List.length_map _ _, ?_, ?_⟩ <;> rw [List.getElem?_map]
